import Mathlib

/-!
Verification development for the ai-caller call lifecycle and webhook
reconciliation engine.  The definitions below are a shallow embedding of the
TypeScript sources:

* `src/modules/calls/call.types.ts`   — data model,
* `src/modules/calls/call.service.ts` — call store mutations and the
  stale-call reaper,
* the Vapi webhook route module (`vapiRoutes`) — status-update handling,
  transcript reconciliation and summary generation,
* `src/modules/vapi/webhook-verification.ts` — signature verification.

Conventions of the embedding: JavaScript `Date` values and numeric payload
fields are modelled as `Int` (fractional milliseconds are not modelled);
JavaScript string falsiness (`undefined` or `""`) is modelled by `jsOrStr`;
numeric falsiness (`undefined` or `0`) by `jsOrInt`; `Array.prototype.sort`
(stable since ES2019) is modelled by the stable insertion sort `sortT`;
`String.prototype.trim` by `jsTrim` (ASCII whitespace).
-/

namespace AICaller

/-! ### JavaScript string/number helpers -/

/-- `a || d` for JS strings: `undefined` and `""` are falsy. -/
def jsOrStr (a : Option String) (d : String) : String :=
  match a with
  | some s => if s = "" then d else s
  | none => d

/-- `a || d` for JS numbers: `undefined` and `0` are falsy. -/
def jsOrInt (a : Option Int) (d : Int) : Int :=
  match a with
  | some v => if v = 0 then d else v
  | none => d

/-- Truthiness of an optional JS string. -/
def truthyOptStr : Option String → Bool
  | some s => !(s == "")
  | none => false

/-- Whether `pat` is a prefix of `l` (character lists). -/
def charsBeginWith : List Char → List Char → Bool
  | [], _ => true
  | _ :: _, [] => false
  | p :: ps, c :: cs => p == c && charsBeginWith ps cs

/-- Whether `pat` occurs as a contiguous substring of `l`. -/
def charsContain (pat : List Char) : List Char → Bool
  | [] => charsBeginWith pat []
  | c :: cs => charsBeginWith pat (c :: cs) || charsContain pat cs

/-- JS `s.includes(pat)`. -/
def strIncludes (s pat : String) : Bool := charsContain pat.data s.data

/-- JS `s.toLowerCase()` (ASCII). -/
def jsToLower (s : String) : String := String.mk (s.data.map Char.toLower)

/-- ASCII whitespace recognised by the trim model. -/
def isWS (c : Char) : Bool := c == ' ' || c == '\t' || c == '\n' || c == '\r'

/-- Characters of a string with leading and trailing whitespace removed. -/
def trimChars (cs : List Char) : List Char :=
  ((cs.dropWhile isWS).reverse.dropWhile isWS).reverse

/-- JS `s.trim()`. -/
def jsTrim (s : String) : String := String.mk (trimChars s.data)

/-- JS `String(charAt(0).toUpperCase()) + slice(1)`. -/
def capFirst (s : String) : String :=
  match s.data with
  | [] => ""
  | c :: cs => String.mk (c.toUpper :: cs)

/-! ### Data model (`call.types.ts`) -/

inductive CallStatus
  | PENDING | CALLING | IN_PROGRESS | COMPLETED | FAILED | NO_ANSWER | VOICEMAIL
  deriving DecidableEq, Repr

inductive CallState
  | GREETING | QUALIFICATION | CLOSING | END
  deriving DecidableEq, Repr

inductive Role
  | user | bot | system
  deriving DecidableEq, Repr

inductive InterestLevel
  | HOT | WARM | COLD | NOT_INTERESTED
  deriving DecidableEq, Repr

structure TranscriptMessage where
  role : Role
  message : String
  time : Option Int
  secondsFromStart : Option Int
  deriving DecidableEq, Repr

structure LeadData where
  firstName : String
  lastName : String
  phone : String
  county : String
  state : String
  acreage : Option Int
  propertyAddress : Option String
  deriving DecidableEq, Repr

structure CallSummary where
  duration : Int
  outcome : String
  interestLevel : InterestLevel
  keyPoints : List String
  nextAction : Option String
  appointmentScheduled : Bool
  deriving DecidableEq, Repr

structure CallEntity where
  id : String
  phone : String
  state : CallState
  status : CallStatus
  transcript : List TranscriptMessage
  outcome : Option String
  leadData : Option LeadData
  summary : Option CallSummary
  vapiCallId : Option String
  errorMessage : Option String
  startedAt : Option Int
  completedAt : Option Int
  createdAt : Int
  updatedAt : Int
  deriving DecidableEq, Repr

/-- The four terminal statuses (spec §3). -/
def isTerminal : CallStatus → Bool
  | .COMPLETED | .FAILED | .NO_ANSWER | .VOICEMAIL => true
  | _ => false

/-! ### Webhook payload model (`vapi.schemas.ts`) -/

/-- One element of `message.artifact.messages`. -/
structure RawMsg where
  role : String
  message : Option String
  content : Option String
  time : Option Int
  endTime : Option Int
  secondsFromStart : Option Int
  deriving DecidableEq, Repr

/-- The fields of a `status-update` webhook message used by the handler.
`artifactMessages` models `message.artifact?.messages` (both the missing
artifact and the missing message list collapse to `none`, matching the
`artifact?.messages` truthiness test in the source). -/
structure StatusUpdateMsg where
  status : Option String
  endedReason : Option String
  artifactMessages : Option (List RawMsg)
  deriving DecidableEq, Repr

/-! ### `callService.updateStatus` / `addSummary` (`call.service.ts`) -/

def updateStatus (now : Int) (status : CallStatus) (errorMessage : Option String)
    (call : CallEntity) : CallEntity :=
  let c1 := { call with status := status, updatedAt := now }
  let c2 := if status = .IN_PROGRESS ∧ c1.startedAt = none then
      { c1 with startedAt := some now } else c1
  let c3 := if (status = .COMPLETED ∨ status = .FAILED) ∧ c2.completedAt = none then
      { c2 with completedAt := some now, state := .END } else c2
  if status = .FAILED ∧ truthyOptStr errorMessage = true then
    { c3 with errorMessage := errorMessage } else c3

def addSummary (now : Int) (summary : CallSummary) (call : CallEntity) : CallEntity :=
  { call with summary := some summary, updatedAt := now }

/-! ### End-reason classification (`handleStatusUpdate`, ended branch) -/

def successReasons : List String :=
  ["customer-ended-call", "assistant-ended-call", "silence-timed-out",
   "assistant-said-end-call-phrase", "assistant-said-message-too-long"]

def voicemailReasons : List String := ["voicemail", "voicemail-reached"]

def noAnswerReasons : List String := ["no-answer", "no-answer-voicemail"]

def classifyEndReason (endReason : String) : CallStatus :=
  if endReason ∈ successReasons then .COMPLETED
  else if voicemailReasons.any (fun r => strIncludes endReason r) then .VOICEMAIL
  else if noAnswerReasons.any (fun r => strIncludes endReason r) then .NO_ANSWER
  else .FAILED

/-- `formatEndReason` from the webhook module. -/
def formatEndReason (endReason : String) : String :=
  let s1 := if endReason.startsWith "call.in-progress." then endReason.drop 17
    else if endReason.startsWith "call." then endReason.drop 5
    else endReason
  let s2 := if s1.startsWith "pipeline-error-" then "Pipeline error: " ++ s1.drop 15 else s1
  let s3 := if s2.startsWith "error-" then s2.drop 6 else s2
  let s4 := String.mk (s3.data.map (fun c => if c = '-' ∨ c = '_' then ' ' else c))
  capFirst s4

/-- The error/info message computed in the ended branch of `handleStatusUpdate`
for each final status (`COMPLETED` calls get none). -/
def endedErrorMessage (finalStatus : CallStatus) (endReason : String) : Option String :=
  if finalStatus = .FAILED then
    if strIncludes endReason "sip-503" then
      some "Service Unavailable (SIP 503) - recipient\x27s phone service temporarily unavailable"
    else if strIncludes endReason "sip-486" then
      some "Busy Here (SIP 486) - recipient is busy"
    else if strIncludes endReason "sip-480" then
      some "Temporarily Unavailable (SIP 480)"
    else some (formatEndReason endReason)
  else if finalStatus = .VOICEMAIL then some "Call reached voicemail"
  else if finalStatus = .NO_ANSWER then some "No answer from recipient"
  else none

/-! ### Transcript reconciliation (`extractTranscriptFromMessages`) -/

/-- `msg.message || msg.content || ""`. -/
def rawText (m : RawMsg) : String := jsOrStr m.message (jsOrStr m.content "")

/-- Sort key used by the transcript comparator: `t.time || t.secondsFromStart || 0`. -/
def sortKey (t : TranscriptMessage) : Int := jsOrInt t.time (jsOrInt t.secondsFromStart 0)

/-- Stable insertion of one element by `sortKey` (goes before later equal keys). -/
def ins (x : TranscriptMessage) : List TranscriptMessage → List TranscriptMessage
  | [] => [x]
  | y :: ys => if sortKey x ≤ sortKey y then x :: y :: ys else y :: ins x ys

/-- Model of the stable JS `Array.prototype.sort` with comparator
`(a.time || a.secondsFromStart || 0) - (b.time || b.secondsFromStart || 0)`. -/
def sortT : List TranscriptMessage → List TranscriptMessage
  | [] => []
  | x :: xs => ins x (sortT xs)

/-- Insertion of a later element: placed after all equal sort keys. -/
def insAfter (x : TranscriptMessage) : List TranscriptMessage → List TranscriptMessage
  | [] => [x]
  | y :: ys => if sortKey x < sortKey y then x :: y :: ys else y :: insAfter x ys

/-- The transcript entry pushed for a valid raw message. -/
def mkEntry (m : RawMsg) : TranscriptMessage :=
  { role := if m.role == "user" then Role.user else Role.bot,
    message := jsTrim (rawText m),
    time := m.time,
    secondsFromStart := m.secondsFromStart }

/-- Dedup key of an existing transcript entry:
`role + ":" + message.trim().toLowerCase() + ":" + (time || 0)`
(the string key is injective in these three components). -/
def entryKey (t : TranscriptMessage) : Role × String × Int :=
  (t.role, jsToLower (jsTrim t.message), jsOrInt t.time 0)

/-- Dedup key of a candidate raw message (only applied after the user/bot filter). -/
def msgKey (m : RawMsg) : Role × String × Int :=
  (if m.role == "user" then Role.user else Role.bot,
   jsToLower (jsTrim (rawText m)), jsOrInt m.time 0)

/-- Whether some entry of `l` has dedup key `k`. -/
def hasKeyE (k : Role × String × Int) (l : List TranscriptMessage) : Bool :=
  l.any (fun t => decide (entryKey t = k))

/-- A raw message that survives both filters of `extractTranscriptFromMessages`. -/
def validRaw (m : RawMsg) : Bool :=
  (m.role == "user" || m.role == "bot") && decide (0 < (jsTrim (rawText m)).length)

def extractTranscriptFromMessages (call : CallEntity) (messages : List RawMsg)
    (isFinalTranscript : Bool) : CallEntity :=
  let validMessages :=
    (messages.filter (fun m => m.role == "user" || m.role == "bot")).filter
      (fun m => decide (0 < (jsTrim (rawText m)).length))
  let newTranscript :=
    if isFinalTranscript then
      call.transcript ++ validMessages.map mkEntry
    else
      validMessages.foldl
        (fun acc m =>
          if acc.any (fun t => decide (entryKey t = msgKey m)) then acc
          else acc ++ [mkEntry m])
        call.transcript
  { call with transcript := sortT newTranscript }

/-- The filtered, converted final message list (the replacement payload). -/
def finalEntries (messages : List RawMsg) : List TranscriptMessage :=
  ((messages.filter (fun m => m.role == "user" || m.role == "bot")).filter
      (fun m => decide (0 < (jsTrim (rawText m)).length))).map mkEntry

/-! ### Outcome classifier (webhook module) -/

def analyzeInterestLevel (transcript : String) : InterestLevel :=
  let lower := jsToLower transcript
  if strIncludes lower "yes" || strIncludes lower "interested" ||
      strIncludes lower "how much" || strIncludes lower "make an offer" then .HOT
  else if strIncludes lower "not interested" || strIncludes lower "no thanks" ||
      strIncludes lower "don\x27t call" then .NOT_INTERESTED
  else if strIncludes lower "maybe" || strIncludes lower "thinking about" ||
      strIncludes lower "tell me more" then .WARM
  else .COLD

def acreageRender : Option Int → String
  | some a => if a = 0 then "?" else toString a
  | none => "?"

def extractKeyPoints (call : CallEntity) : List String :=
  (match call.leadData with
   | some ld =>
     let acres := acreageRender ld.acreage
     let county := ld.county
     let st := ld.state
     [s!"Property: {acres} acres in {county} County, {st}"]
   | none => [])
  ++ (if call.state = .QUALIFICATION then
        ["Lead qualified - answered qualification questions"] else [])
  ++ (if call.state = .CLOSING then
        ["Reached closing stage - discussed offer"] else [])
  ++ (if call.transcript.length > 0 then
        let n := call.transcript.length
        [s!"Conversation length: {n} exchanges"]
      else [])

def determineOutcome (call : CallEntity) (interestLevel : InterestLevel) : String :=
  if interestLevel = .NOT_INTERESTED then "Not interested in selling"
  else if call.state = .END then
    (if interestLevel = .HOT then "Appointment scheduled" else "Call completed")
  else if call.state = .CLOSING then "Discussed offer - follow up needed"
  else if call.state = .QUALIFICATION then "Lead qualified - needs offer"
  else "Initial contact made"

def determineNextAction (call : CallEntity) (interestLevel : InterestLevel) :
    Option String :=
  if interestLevel = .NOT_INTERESTED then some "Mark as not interested"
  else if interestLevel = .HOT then
    (if call.state = .CLOSING ∨ call.state = .END then some "Send offer via email"
     else some "Schedule follow-up call")
  else if interestLevel = .WARM then some "Follow up in 1 week"
  else if interestLevel = .COLD then some "Follow up in 2-4 weeks"
  else none

def maxOfList : List Int → Int
  | [] => 0
  | x :: xs => xs.foldl max x

/-- `generateCallSummary` from the webhook module.  `artifactMessages` models
`artifact?.messages` (fractional millisecond division is modelled with `fdiv`). -/
def generateCallSummary (call : CallEntity) (artifactMessages : Option (List RawMsg)) :
    CallSummary :=
  let duration :=
    match artifactMessages with
    | some msgs =>
      let botMessages := msgs.filter (fun m => m.role == "bot")
      if botMessages.length > 0 then
        maxOfList (botMessages.map (fun m => Int.fdiv (jsOrInt m.endTime (jsOrInt m.time 0)) 1000))
      else 0
    | none =>
      match call.startedAt, call.completedAt with
      | some s, some e => Int.fdiv (e - s) 1000
      | _, _ => 0
  let transcriptText := String.intercalate " " (call.transcript.map (fun t => t.message))
  let interestLevel := analyzeInterestLevel transcriptText
  { duration := duration,
    outcome := determineOutcome call interestLevel,
    interestLevel := interestLevel,
    keyPoints := extractKeyPoints call,
    nextAction := determineNextAction call interestLevel,
    appointmentScheduled :=
      call.state = .CLOSING ∧ ¬(interestLevel = .NOT_INTERESTED) }

/-! ### `handleStatusUpdate` (webhook module) -/

def endedReasonOf (e : StatusUpdateMsg) : String := jsOrStr e.endedReason "completed"

def endedFinalStatus (e : StatusUpdateMsg) : CallStatus :=
  classifyEndReason (endedReasonOf e)

def endedErrMsg (e : StatusUpdateMsg) : Option String :=
  endedErrorMessage (endedFinalStatus e) (endedReasonOf e)

/-- The transcript replacement performed in the ended branch when the event
carries `artifact.messages`: clear the accumulated transcript and re-extract
from the final payload. -/
def endedTranscriptStep (e : StatusUpdateMsg) (c : CallEntity) : CallEntity :=
  match e.artifactMessages with
  | some msgs => extractTranscriptFromMessages { c with transcript := [] } msgs true
  | none => c

/-- The `status === "ended"` branch: optionally replace the transcript with the
final artifact payload, update the status with the classified end reason, then
always generate and store a summary. -/
def handleEnded (now : Int) (e : StatusUpdateMsg) (c : CallEntity) : CallEntity :=
  let c2 := updateStatus now (endedFinalStatus e) (endedErrMsg e) (endedTranscriptStep e c)
  addSummary now (generateCallSummary c2 e.artifactMessages) c2

/-- The `status === "failed" | "busy" | "no-answer"` branch. -/
def handleFailedBusyNoAnswer (now : Int) (s : String) (e : StatusUpdateMsg)
    (c : CallEntity) : CallEntity :=
  let finalStatus := if s = "no-answer" then CallStatus.NO_ANSWER else CallStatus.FAILED
  let base := s!"Call {s}"
  let base2 := match e.endedReason with
    | some r => if r = "" then base else base ++ " - Reason: " ++ r
    | none => base
  let errMsg :=
    if s = "no-answer" then "No answer from recipient"
    else if s = "busy" then "Recipient line was busy"
    else if s = "failed" ∧ truthyOptStr e.endedReason = true then
      "Call failed - " ++ jsOrStr e.endedReason ""
    else base2
  let c1 := updateStatus now finalStatus (some errMsg) c
  addSummary now (generateCallSummary c1 none) c1

/-- `handleStatusUpdate`, modelled on the correlated call record (the external
call id lookup is outside this model; an event with no status is a no-op). -/
def handleStatusUpdate (now : Int) (e : StatusUpdateMsg) (c : CallEntity) : CallEntity :=
  match e.status with
  | none => c
  | some s =>
    if s = "queued" then updateStatus now .CALLING none c
    else if s = "ringing" then updateStatus now .CALLING none c
    else if s = "in-progress" then updateStatus now .IN_PROGRESS none c
    else if s = "ended" then handleEnded now e c
    else if s = "failed" ∨ s = "busy" ∨ s = "no-answer" then
      handleFailedBusyNoAnswer now s e c
    else c

/-! ### `generateBasicSummary` and the stale-call reaper (`call.service.ts`) -/

def generateBasicSummary (call : CallEntity) : CallSummary :=
  let transcriptText := String.intercalate " " (call.transcript.map (fun t => t.message))
  let lower := jsToLower transcriptText
  let interestLevel :=
    if strIncludes lower "yes" || strIncludes lower "interested" ||
        strIncludes lower "how much" then InterestLevel.HOT
    else if strIncludes lower "not interested" || strIncludes lower "no thanks" then
      InterestLevel.NOT_INTERESTED
    else if strIncludes lower "maybe" || strIncludes lower "thinking about" then
      InterestLevel.WARM
    else InterestLevel.COLD
  let keyPoints :=
    (match call.leadData with
     | some ld =>
       let acres := acreageRender ld.acreage
       let county := ld.county
       let st := ld.state
       [s!"Property: {acres} acres in {county} County, {st}"]
     | none => [])
    ++ (if call.transcript.length > 0 then
          let n := call.transcript.length
          [s!"Conversation length: {n} messages"]
        else [])
    ++ (if call.status = .FAILED then ["Call timed out or failed"] else [])
  let duration :=
    match call.startedAt, call.completedAt with
    | some s, some e => Int.fdiv (e - s) 1000
    | _, _ => 0
  let outcome :=
    if call.status = .FAILED then "Call failed or timed out"
    else if interestLevel = .HOT then "Lead qualified - needs offer"
    else if interestLevel = .NOT_INTERESTED then "Lead not interested"
    else "Call completed"
  let nextAction :=
    if call.status = .FAILED then "Retry call later"
    else if interestLevel = .HOT then "Send offer via email"
    else if interestLevel = .NOT_INTERESTED then "Mark as do not contact"
    else "Review transcript"
  { duration := duration, outcome := outcome, interestLevel := interestLevel,
    keyPoints := keyPoints, nextAction := some nextAction,
    appointmentScheduled := false }

/-- Staleness test of `markStaleCallsAsFailed`:
`(status = CALLING ∨ status = IN_PROGRESS) ∧ updated_at < now − timeout·1000`. -/
def isStale (now timeoutSeconds : Int) (c : CallEntity) : Bool :=
  (c.status == .CALLING || c.status == .IN_PROGRESS) &&
    decide (c.updatedAt < now - timeoutSeconds * 1000)

def timeoutMessage (timeoutSeconds : Int) : String :=
  let timeoutMinutes := Int.fdiv timeoutSeconds 60
  s!"Call timed out after {timeoutMinutes} minutes without status update"

/-- Processing of a single stale record inside the reaper loop.  Note that the
summary guard and `generateBasicSummary` both read the pre-update snapshot
`call`, exactly as the source loop does. -/
def reapOne (now timeoutSeconds : Int) (call : CallEntity) : CallEntity :=
  let c1 := updateStatus now .FAILED (some (timeoutMessage timeoutSeconds)) call
  if call.transcript.length > 0 ∧ call.summary = none then
    addSummary now (generateBasicSummary call) c1
  else c1

/-- One sweep of `markStaleCallsAsFailed` over the store, modelled as the list
of post-sweep records (non-stale records are not selected by the query). -/
def markStaleCallsAsFailed (now timeoutSeconds : Int) (calls : List CallEntity) :
    List CallEntity :=
  calls.map (fun call =>
    if isStale now timeoutSeconds call then reapOne now timeoutSeconds call else call)

/-! ### Signature verification (`webhook-verification.ts`)

`hmacSha256Hex secret payload` abstracts `createHmac("sha256", secret)
.update(payload).digest("hex")`; buffer byte lengths are UTF-8 byte sizes and
`timingSafeEqual` on equal-length buffers is byte equality, hence string
equality. -/

def verifyVapiSignature (hmacSha256Hex : String → String → String)
    (payload : String) (signature : Option String) (secret : String) : Bool :=
  match signature with
  | none => false
  | some sig =>
    if sig = "" then false
    else
      let expectedSignature := hmacSha256Hex secret payload
      if sig.utf8ByteSize ≠ expectedSignature.utf8ByteSize then false
      else sig == expectedSignature

/-! ### Concrete records and events used by counterexamples and witnesses -/

/-- A `status-update` message with `status = "ended"`. -/
def mkEndedEvent (endedReason : String) (artifactMessages : Option (List RawMsg)) :
    StatusUpdateMsg :=
  { status := some "ended", endedReason := some endedReason,
    artifactMessages := artifactMessages }

/-- A fresh record with no error message and no summary. -/
def cFresh : CallEntity :=
  { id := "fresh", phone := "+15550000", state := .GREETING, status := .PENDING,
    transcript := [], outcome := none, leadData := none, summary := none,
    vapiCallId := none, errorMessage := none, startedAt := none,
    completedAt := none, createdAt := 0, updatedAt := 0 }

/-- An in-progress record, mid-conversation. -/
def cLive : CallEntity :=
  { id := "live", phone := "+15550001", state := .QUALIFICATION, status := .IN_PROGRESS,
    transcript := [], outcome := none, leadData := none, summary := none,
    vapiCallId := some "vapi-live", errorMessage := none, startedAt := some 500,
    completedAt := none, createdAt := 0, updatedAt := 400 }

/-- A record that already reached the terminal status COMPLETED. -/
def c1Done : CallEntity :=
  { id := "c1", phone := "+15550002", state := .END, status := .COMPLETED,
    transcript := [], outcome := none, leadData := none, summary := none,
    vapiCallId := some "vapi-c1", errorMessage := none, startedAt := some 100,
    completedAt := some 200, createdAt := 0, updatedAt := 200 }

/-- A sentinel summary that no generator produces. -/
def c2Summary0 : CallSummary :=
  { duration := 1, outcome := "original summary sentinel", interestLevel := .COLD,
    keyPoints := [], nextAction := none, appointmentScheduled := false }

/-- A terminal record that already carries a summary. -/
def c2Done : CallEntity :=
  { id := "c2", phone := "+15550003", state := .END, status := .COMPLETED,
    transcript := [], outcome := none, leadData := none, summary := some c2Summary0,
    vapiCallId := some "vapi-c2", errorMessage := none, startedAt := some 100,
    completedAt := some 200, createdAt := 0, updatedAt := 200 }

/-- A completed record whose transcript contains an explicit decline. -/
def c3Call : CallEntity :=
  { id := "c3", phone := "+15550004", state := .GREETING, status := .COMPLETED,
    transcript := [{ role := .user, message := "No, I\x27m not interested",
                     time := some 1, secondsFromStart := none }],
    outcome := none, leadData := none, summary := none, vapiCallId := some "vapi-c3",
    errorMessage := none, startedAt := some 100, completedAt := some 200,
    createdAt := 0, updatedAt := 200 }

/-- An in-progress record used for the voicemail conversation-state scenario. -/
def c4Call : CallEntity :=
  { id := "c4", phone := "+15550005", state := .QUALIFICATION, status := .IN_PROGRESS,
    transcript := [], outcome := none, leadData := none, summary := none,
    vapiCallId := some "vapi-c4", errorMessage := none, startedAt := some 500,
    completedAt := none, createdAt := 0, updatedAt := 400 }

/-- An in-progress record used for the voicemail error-message scenario. -/
def c7Call : CallEntity :=
  { id := "c7", phone := "+15550006", state := .QUALIFICATION, status := .IN_PROGRESS,
    transcript := [], outcome := none, leadData := none, summary := none,
    vapiCallId := some "vapi-c7", errorMessage := none, startedAt := some 500,
    completedAt := none, createdAt := 0, updatedAt := 400 }

/-- A stale in-progress record with an empty transcript and no summary. -/
def c8Stale : CallEntity :=
  { id := "c8", phone := "+15550007", state := .GREETING, status := .IN_PROGRESS,
    transcript := [], outcome := none, leadData := none, summary := none,
    vapiCallId := some "vapi-c8", errorMessage := none, startedAt := some 0,
    completedAt := none, createdAt := 0, updatedAt := 0 }

/-- A stale in-progress record with a non-empty transcript and no summary. -/
def c8StaleTalk : CallEntity :=
  { id := "c8w", phone := "+15550008", state := .QUALIFICATION, status := .IN_PROGRESS,
    transcript := [{ role := .user, message := "maybe later", time := some 1,
                     secondsFromStart := none }],
    outcome := none, leadData := none, summary := none,
    vapiCallId := some "vapi-c8w", errorMessage := none, startedAt := some 0,
    completedAt := none, createdAt := 0, updatedAt := 0 }

/-- Two incremental fragments that tie on the time offset. -/
def c9FragA : RawMsg :=
  { role := "user", message := some "hello there", content := none, time := some 1,
    endTime := none, secondsFromStart := none }

def c9FragB : RawMsg :=
  { role := "bot", message := some "welcome", content := none, time := some 1,
    endTime := none, secondsFromStart := none }

/-- A record with an empty transcript for the ordering counterexample. -/
def c9Call : CallEntity :=
  { id := "c9", phone := "+15550009", state := .GREETING, status := .IN_PROGRESS,
    transcript := [], outcome := none, leadData := none, summary := none,
    vapiCallId := some "vapi-c9", errorMessage := none, startedAt := some 0,
    completedAt := none, createdAt := 0, updatedAt := 0 }

/-- Two incremental fragments with distinct dedup keys and distinct offsets. -/
def c9WFragA : RawMsg :=
  { role := "user", message := some "first line", content := none, time := some 1,
    endTime := none, secondsFromStart := none }

def c9WFragB : RawMsg :=
  { role := "bot", message := some "second line", content := none, time := some 2,
    endTime := none, secondsFromStart := none }

/-- A record carrying a partial transcript before the final replace. -/
def c5Call : CallEntity :=
  { id := "c5", phone := "+15550010", state := .CLOSING, status := .IN_PROGRESS,
    transcript := [{ role := .user, message := "partial fragment", time := some 3,
                     secondsFromStart := none }],
    outcome := none, leadData := none, summary := none,
    vapiCallId := some "vapi-c5", errorMessage := none, startedAt := some 100,
    completedAt := none, createdAt := 0, updatedAt := 90 }

/-- The authoritative final message list of the ended event. -/
def c5Msgs : List RawMsg :=
  [{ role := "bot", message := some "final hello", content := none, time := some 2,
     endTime := none, secondsFromStart := none },
   { role := "user", message := some "final reply", content := none, time := some 1,
     endTime := none, secondsFromStart := none },
   { role := "system", message := some "prompt", content := none, time := some 0,
     endTime := none, secondsFromStart := none },
   { role := "bot", message := some "   ", content := none, time := some 4,
     endTime := none, secondsFromStart := none }]

def c5Event : StatusUpdateMsg := mkEndedEvent "customer-ended-call" (some c5Msgs)

/-! ### Helper lemmas: trimming -/

theorem dropWhile_dropWhile (p : Char → Bool) (l : List Char) :
    (l.dropWhile p).dropWhile p = l.dropWhile p := by
  induction l with
  | nil => rfl
  | cons c cs ih =>
    by_cases h : p c = true
    · simp [List.dropWhile_cons, h, ih]
    · simp [List.dropWhile_cons, h]

theorem trimChars_idem (cs : List Char) : trimChars (trimChars cs) = trimChars cs := by
  unfold trimChars
  set A := cs.dropWhile isWS with hA
  have hAfix : A.dropWhile isWS = A := by
    rw [hA]; exact dropWhile_dropWhile isWS cs
  set B := (A.reverse.dropWhile isWS).reverse with hB
  have hBrev : B.reverse.dropWhile isWS = B.reverse := by
    rw [hB, List.reverse_reverse]
    exact dropWhile_dropWhile isWS A.reverse
  have hBfix : B.dropWhile isWS = B := by
    rcases hAcase : A with _ | ⟨c, t⟩
    · simp [hB, hAcase]
    · have hc : isWS c = false := by
        cases hcv : isWS c
        · rfl
        · exfalso
          have h1 := hAfix
          rw [hAcase, List.dropWhile_cons, if_pos hcv] at h1
          have hlen := (List.dropWhile_sublist (l := t) isWS).length_le
          rw [h1, List.length_cons] at hlen
          omega
      have hrev : A.reverse = t.reverse ++ [c] := by rw [hAcase]; simp
      rw [hB, hrev, List.dropWhile_append]
      by_cases hD : (t.reverse.dropWhile isWS).isEmpty = true
      · rw [if_pos hD]
        simp [List.dropWhile_cons, hc]
      · rw [if_neg hD]
        rw [List.reverse_append]
        simp [List.dropWhile_cons, hc]
  rw [hBfix, hBrev, List.reverse_reverse]

theorem jsTrim_idem (s : String) : jsTrim (jsTrim s) = jsTrim s := by
  unfold jsTrim
  exact congrArg String.mk (trimChars_idem s.data)

/-- The dedup key of a stored entry coincides with the key of the raw message
it was created from (trimming is idempotent). -/
theorem entryKey_mkEntry (m : RawMsg) : entryKey (mkEntry m) = msgKey m := by
  simp [entryKey, mkEntry, msgKey, jsTrim_idem]

/-! ### Helper lemmas: the stable sort -/

theorem mem_ins {a x : TranscriptMessage} : ∀ {l : List TranscriptMessage},
    a ∈ ins x l ↔ a = x ∨ a ∈ l := by
  intro l
  induction l with
  | nil => simp [ins]
  | cons y ys ih =>
    by_cases h : sortKey x ≤ sortKey y
    · simp [ins, h]
    · simp only [ins, if_neg h, List.mem_cons, ih]
      tauto

theorem ins_pairwise {x : TranscriptMessage} : ∀ {l : List TranscriptMessage},
    List.Pairwise (fun a b => sortKey a ≤ sortKey b) l →
    List.Pairwise (fun a b => sortKey a ≤ sortKey b) (ins x l) := by
  intro l
  induction l with
  | nil => intro _; simp [ins]
  | cons y ys ih =>
    intro h
    rw [List.pairwise_cons] at h
    obtain ⟨hy, hys⟩ := h
    by_cases hxy : sortKey x ≤ sortKey y
    · rw [ins, if_pos hxy, List.pairwise_cons]
      refine ⟨?_, ?_⟩
      · intro z hz
        rcases List.mem_cons.mp hz with hz | hz
        · rw [hz] at *; exact hxy
        · exact le_trans hxy (hy z hz)
      · rw [List.pairwise_cons]; exact ⟨hy, hys⟩
    · rw [ins, if_neg hxy, List.pairwise_cons]
      refine ⟨?_, ih hys⟩
      intro z hz
      rcases mem_ins.mp hz with hz | hz
      · rw [hz]; omega
      · exact hy z hz

theorem sortT_pairwise : ∀ (l : List TranscriptMessage),
    List.Pairwise (fun a b => sortKey a ≤ sortKey b) (sortT l) := by
  intro l
  induction l with
  | nil => simp [sortT]
  | cons x xs ih => exact ins_pairwise ih

theorem sortT_of_pairwise : ∀ {l : List TranscriptMessage},
    List.Pairwise (fun a b => sortKey a ≤ sortKey b) l → sortT l = l := by
  intro l
  induction l with
  | nil => intro _; rfl
  | cons x xs ih =>
    intro h
    rw [List.pairwise_cons] at h
    obtain ⟨hx, hxs⟩ := h
    rw [sortT, ih hxs]
    cases hc : xs with
    | nil => rfl
    | cons y ys =>
      have : sortKey x ≤ sortKey y := hx y (by rw [hc]; exact List.mem_cons_self y ys)
      rw [ins, if_pos this]

theorem sortT_idem (l : List TranscriptMessage) : sortT (sortT l) = sortT l :=
  sortT_of_pairwise (sortT_pairwise l)

theorem ins_insAfter (x y : TranscriptMessage) : ∀ (l : List TranscriptMessage),
    ins y (insAfter x l) = insAfter x (ins y l) := by
  intro l
  induction l with
  | nil =>
    simp only [ins, insAfter]
    split_ifs <;> first | rfl | omega
  | cons z zs ih =>
    by_cases hA : sortKey x < sortKey z
    · by_cases hB : sortKey y ≤ sortKey z
      · by_cases hC : sortKey y ≤ sortKey x
        · have hxy : ¬ sortKey x < sortKey y := by omega
          simp [insAfter, ins, hA, hB, hC, hxy]
        · have hxy : sortKey x < sortKey y := by omega
          simp [insAfter, ins, hA, hB, hC, hxy]
      · have hC : ¬ sortKey y ≤ sortKey x := by omega
        simp [insAfter, ins, hA, hB, hC]
    · by_cases hB : sortKey y ≤ sortKey z
      · by_cases hC : sortKey y ≤ sortKey x
        · have hxy : ¬ sortKey x < sortKey y := by omega
          simp [insAfter, ins, hA, hB, hC, hxy]
        · omega
      · simp [insAfter, ins, hA, hB, ih]

theorem sortT_append_single (l : List TranscriptMessage) (x : TranscriptMessage) :
    sortT (l ++ [x]) = insAfter x (sortT l) := by
  induction l with
  | nil => simp [sortT, ins, insAfter]
  | cons y ys ih =>
    rw [List.cons_append, sortT, ih, ins_insAfter, sortT]

theorem insAfter_comm {a b : TranscriptMessage} (hs : sortKey a ≠ sortKey b) :
    ∀ (l : List TranscriptMessage), insAfter a (insAfter b l) = insAfter b (insAfter a l) := by
  intro l
  induction l with
  | nil =>
    simp only [insAfter]
    split_ifs <;> first | rfl | omega
  | cons z zs ih =>
    by_cases haz : sortKey a < sortKey z <;> by_cases hbz : sortKey b < sortKey z
    · by_cases hab : sortKey a < sortKey b
      · have hba : ¬ sortKey b < sortKey a := by omega
        simp [insAfter, haz, hbz, hab, hba]
      · have hba : sortKey b < sortKey a := by omega
        simp [insAfter, haz, hbz, hab, hba]
    · have hab : sortKey a < sortKey b := by omega
      have hba : ¬ sortKey b < sortKey a := by omega
      simp [insAfter, haz, hbz, hab, hba]
    · have hba : sortKey b < sortKey a := by omega
      have hab : ¬ sortKey a < sortKey b := by omega
      simp [insAfter, haz, hbz, hab, hba]
    · simp [insAfter, haz, hbz, ih]

/-! ### Helper lemmas: dedup keys -/

theorem mem_sortT {a : TranscriptMessage} : ∀ {l : List TranscriptMessage},
    a ∈ sortT l ↔ a ∈ l := by
  intro l
  induction l with
  | nil => simp [sortT]
  | cons x xs ih =>
    rw [sortT, mem_ins, ih]
    simp

theorem hasKeyE_sortT (k : Role × String × Int) (l : List TranscriptMessage) :
    hasKeyE k (sortT l) = hasKeyE k l := by
  rw [Bool.eq_iff_iff]
  simp only [hasKeyE, List.any_eq_true]
  constructor
  · rintro ⟨t, ht, hk⟩; exact ⟨t, mem_sortT.mp ht, hk⟩
  · rintro ⟨t, ht, hk⟩; exact ⟨t, mem_sortT.mpr ht, hk⟩

theorem hasKeyE_append (k : Role × String × Int) (l l' : List TranscriptMessage) :
    hasKeyE k (l ++ l') = (hasKeyE k l || hasKeyE k l') := by
  simp [hasKeyE, List.any_append]

theorem hasKeyE_single (k : Role × String × Int) (x : TranscriptMessage) :
    hasKeyE k [x] = decide (entryKey x = k) := by
  simp [hasKeyE]

/-! ### Helper lemmas: the call-service operations -/

theorem updateStatus_eq (now : Int) (st : CallStatus) (em : Option String)
    (c : CallEntity) :
    updateStatus now st em c =
    { c with
      status := st
      updatedAt := now
      startedAt := if st = .IN_PROGRESS ∧ c.startedAt = none then some now else c.startedAt
      completedAt := if (st = .COMPLETED ∨ st = .FAILED) ∧ c.completedAt = none then
          some now else c.completedAt
      state := if (st = .COMPLETED ∨ st = .FAILED) ∧ c.completedAt = none then
          CallState.END else c.state
      errorMessage := if st = .FAILED ∧ truthyOptStr em = true then em
          else c.errorMessage } := by
  simp only [updateStatus]
  split_ifs <;> rfl

theorem classifyEndReason_terminal (r : String) :
    isTerminal (classifyEndReason r) = true := by
  unfold classifyEndReason
  split_ifs <;> rfl

theorem classifyEndReason_ne_inprogress (r : String) :
    classifyEndReason r ≠ CallStatus.IN_PROGRESS := by
  unfold classifyEndReason
  split_ifs <;> simp

theorem endedFinalStatus_terminal (e : StatusUpdateMsg) :
    isTerminal (endedFinalStatus e) = true :=
  classifyEndReason_terminal (endedReasonOf e)

/-- The final-replace payload produced by `extractTranscriptFromMessages` in
final mode. -/
theorem extract_final_eq (c : CallEntity) (msgs : List RawMsg) :
    extractTranscriptFromMessages c msgs true =
    { c with transcript := sortT (c.transcript ++ finalEntries msgs) } := rfl

/-- Incremental mode on a single valid fragment: append unless the dedup key is
already present, then re-sort. -/
theorem extract_incr_single (c : CallEntity) (m : RawMsg) (hv : validRaw m = true) :
    extractTranscriptFromMessages c [m] false =
    { c with transcript :=
        sortT (if hasKeyE (msgKey m) c.transcript = true then c.transcript
               else c.transcript ++ [mkEntry m]) } := by
  have h1 : (m.role == "user" || m.role == "bot") = true := by
    unfold validRaw at hv
    exact (Bool.and_eq_true _ _).mp hv |>.1
  have h2 : decide (0 < (jsTrim (rawText m)).length) = true := by
    unfold validRaw at hv
    exact (Bool.and_eq_true _ _).mp hv |>.2
  unfold extractTranscriptFromMessages
  simp only [List.filter_cons, h1, h2, if_true, List.filter_nil, List.foldl_cons,
    List.foldl_nil, if_false, Bool.false_eq_true]
  rfl

theorem endedTranscriptStep_transcript (e : StatusUpdateMsg) (c : CallEntity) :
    (endedTranscriptStep e c).transcript =
    (match e.artifactMessages with
     | some msgs => sortT (finalEntries msgs)
     | none => c.transcript) := by
  unfold endedTranscriptStep
  cases e.artifactMessages with
  | none => rfl
  | some msgs =>
    show sortT ([] ++ finalEntries msgs) = _
    rw [List.nil_append]

theorem endedTranscriptStep_state (e : StatusUpdateMsg) (c : CallEntity) :
    (endedTranscriptStep e c).state = c.state := by
  unfold endedTranscriptStep
  cases e.artifactMessages with
  | none => rfl
  | some msgs => rfl

theorem endedTranscriptStep_status (e : StatusUpdateMsg) (c : CallEntity) :
    (endedTranscriptStep e c).status = c.status := by
  unfold endedTranscriptStep
  cases e.artifactMessages with
  | none => rfl
  | some msgs => rfl

theorem endedTranscriptStep_startedAt (e : StatusUpdateMsg) (c : CallEntity) :
    (endedTranscriptStep e c).startedAt = c.startedAt := by
  unfold endedTranscriptStep
  cases e.artifactMessages with
  | none => rfl
  | some msgs => rfl

theorem endedTranscriptStep_completedAt (e : StatusUpdateMsg) (c : CallEntity) :
    (endedTranscriptStep e c).completedAt = c.completedAt := by
  unfold endedTranscriptStep
  cases e.artifactMessages with
  | none => rfl
  | some msgs => rfl

theorem endedTranscriptStep_errorMessage (e : StatusUpdateMsg) (c : CallEntity) :
    (endedTranscriptStep e c).errorMessage = c.errorMessage := by
  unfold endedTranscriptStep
  cases e.artifactMessages with
  | none => rfl
  | some msgs => rfl

theorem endedTranscriptStep_leadData (e : StatusUpdateMsg) (c : CallEntity) :
    (endedTranscriptStep e c).leadData = c.leadData := by
  unfold endedTranscriptStep
  cases e.artifactMessages with
  | none => rfl
  | some msgs => rfl

theorem endedTranscriptStep_summary (e : StatusUpdateMsg) (c : CallEntity) :
    (endedTranscriptStep e c).summary = c.summary := by
  unfold endedTranscriptStep
  cases e.artifactMessages with
  | none => rfl
  | some msgs => rfl

/-! ### Field lemmas for `handleEnded` -/

theorem handleEnded_status (now : Int) (e : StatusUpdateMsg) (c : CallEntity) :
    (handleEnded now e c).status = endedFinalStatus e := by
  unfold handleEnded addSummary
  rw [updateStatus_eq]

theorem handleEnded_transcript (now : Int) (e : StatusUpdateMsg) (c : CallEntity) :
    (handleEnded now e c).transcript =
    (match e.artifactMessages with
     | some msgs => sortT (finalEntries msgs)
     | none => c.transcript) := by
  unfold handleEnded addSummary
  rw [updateStatus_eq]
  exact endedTranscriptStep_transcript e c

theorem handleEnded_startedAt (now : Int) (e : StatusUpdateMsg) (c : CallEntity) :
    (handleEnded now e c).startedAt = c.startedAt := by
  unfold handleEnded addSummary
  rw [updateStatus_eq]
  have hni : ¬ (endedFinalStatus e = CallStatus.IN_PROGRESS ∧
      (endedTranscriptStep e c).startedAt = none) := by
    intro h
    exact classifyEndReason_ne_inprogress (endedReasonOf e) h.1
  rw [if_neg hni]
  exact endedTranscriptStep_startedAt e c

theorem handleEnded_completedAt (now : Int) (e : StatusUpdateMsg) (c : CallEntity) :
    (handleEnded now e c).completedAt =
    (if (endedFinalStatus e = .COMPLETED ∨ endedFinalStatus e = .FAILED) ∧
         c.completedAt = none then some now else c.completedAt) := by
  unfold handleEnded addSummary
  rw [updateStatus_eq]
  simp only [endedTranscriptStep_completedAt]

theorem handleEnded_state (now : Int) (e : StatusUpdateMsg) (c : CallEntity) :
    (handleEnded now e c).state =
    (if (endedFinalStatus e = .COMPLETED ∨ endedFinalStatus e = .FAILED) ∧
         c.completedAt = none then CallState.END else c.state) := by
  unfold handleEnded addSummary
  rw [updateStatus_eq]
  simp only [endedTranscriptStep_completedAt, endedTranscriptStep_state]

theorem handleEnded_errorMessage (now : Int) (e : StatusUpdateMsg) (c : CallEntity) :
    (handleEnded now e c).errorMessage =
    (if endedFinalStatus e = .FAILED ∧ truthyOptStr (endedErrMsg e) = true then
        endedErrMsg e else c.errorMessage) := by
  unfold handleEnded addSummary
  rw [updateStatus_eq]
  simp only [endedTranscriptStep_errorMessage]

theorem handleEnded_leadData (now : Int) (e : StatusUpdateMsg) (c : CallEntity) :
    (handleEnded now e c).leadData = c.leadData := by
  unfold handleEnded addSummary
  rw [updateStatus_eq]
  exact endedTranscriptStep_leadData e c

theorem handleEnded_summary (now : Int) (e : StatusUpdateMsg) (c : CallEntity) :
    (handleEnded now e c).summary =
    some (generateCallSummary
      (updateStatus now (endedFinalStatus e) (endedErrMsg e) (endedTranscriptStep e c))
      e.artifactMessages) := rfl

theorem handleStatusUpdate_ended (now : Int) (e : StatusUpdateMsg) (c : CallEntity)
    (hst : e.status = some "ended") :
    handleStatusUpdate now e c = handleEnded now e c := by
  obtain ⟨st, er, am⟩ := e
  replace hst : st = some "ended" := hst
  subst hst
  rfl

/-- `generateCallSummary` reads only the transcript, conversation state, lead
data and the two timestamps of the record. -/
theorem generateCallSummary_congr (a : Option (List RawMsg)) {c c' : CallEntity}
    (h1 : c.transcript = c'.transcript) (h2 : c.state = c'.state)
    (h3 : c.leadData = c'.leadData) (h4 : c.startedAt = c'.startedAt)
    (h5 : c.completedAt = c'.completedAt) :
    generateCallSummary c a = generateCallSummary c' a := by
  unfold generateCallSummary extractKeyPoints determineOutcome determineNextAction
  rw [h1, h2, h3, h4, h5]

/-! ### Further accessor lemmas -/

theorem updateStatus_status (now : Int) (st : CallStatus) (em : Option String)
    (c : CallEntity) : (updateStatus now st em c).status = st := by
  rw [updateStatus_eq]

theorem updateStatus_transcript (now : Int) (st : CallStatus) (em : Option String)
    (c : CallEntity) : (updateStatus now st em c).transcript = c.transcript := by
  rw [updateStatus_eq]

theorem updateStatus_summary (now : Int) (st : CallStatus) (em : Option String)
    (c : CallEntity) : (updateStatus now st em c).summary = c.summary := by
  rw [updateStatus_eq]

theorem updateStatus_leadData (now : Int) (st : CallStatus) (em : Option String)
    (c : CallEntity) : (updateStatus now st em c).leadData = c.leadData := by
  rw [updateStatus_eq]

theorem updateStatus_startedAt_of_ne (now : Int) (st : CallStatus) (em : Option String)
    (c : CallEntity) (h : st ≠ .IN_PROGRESS) :
    (updateStatus now st em c).startedAt = c.startedAt := by
  rw [updateStatus_eq]
  exact if_neg (fun hh => h hh.1)

theorem timeoutMessage_ne_empty (t : Int) : timeoutMessage t ≠ "" := by
  intro h
  have hd : (("Call timed out after " ++ toString (Int.fdiv t 60) ++
      " minutes without status update" : String)).data = ([] : List Char) :=
    congrArg String.data h
  rw [String.data_append, String.data_append] at hd
  rcases List.append_eq_nil.mp hd with ⟨hd1, _⟩
  rcases List.append_eq_nil.mp hd1 with ⟨hd2, _⟩
  exact absurd hd2 (by decide)

/-! ### Claims -/

/-- C1 counterexample: a record with the terminal status `COMPLETED` changes to
`VOICEMAIL` when a later ended event with end reason `voicemail-reached` is
processed, so terminal statuses are not sinks. -/
theorem C1_terminal_status_mutates :
    isTerminal c1Done.status = true
  ∧ (handleStatusUpdate 300 (mkEndedEvent "voicemail-reached" none) c1Done).status ≠
      c1Done.status := by
  decide

/-- C1 (amended): `handleStatusUpdate` applies the status classified from an
ended event unconditionally, so the resulting status is a function of the event
alone (independent of the record, hence re-delivery of the identical terminal
event leaves the status unchanged) and is always terminal; terminal statuses
are, however, not sinks. -/
theorem C1_status_function_of_event (e : StatusUpdateMsg) (c c' : CallEntity)
    (now now' : Int) (hst : e.status = some "ended") :
    (handleStatusUpdate now e c).status = (handleStatusUpdate now' e c').status
  ∧ isTerminal (handleStatusUpdate now e c).status = true := by
  rw [handleStatusUpdate_ended now e c hst, handleStatusUpdate_ended now' e c' hst]
  rw [handleEnded_status, handleEnded_status]
  exact ⟨rfl, endedFinalStatus_terminal e⟩

/-- C1 amended-claim witness at a concrete ended event and two records. -/
theorem C1_status_function_of_event_witness :
    (handleStatusUpdate 1 (mkEndedEvent "voicemail-reached" none) cFresh).status =
      (handleStatusUpdate 2 (mkEndedEvent "voicemail-reached" none) cLive).status
  ∧ isTerminal (handleStatusUpdate 1 (mkEndedEvent "voicemail-reached" none) cFresh).status
      = true :=
  C1_status_function_of_event (mkEndedEvent "voicemail-reached" none) cFresh cLive 1 2 rfl

/-- C3: a transcript containing the explicit disinterest phrase "not interested"
is classified HOT, not NOT_INTERESTED, because the HOT check runs first and the
keyword "interested" is a substring of "not interested"; both the webhook
classifier and the basic-summary classifier exhibit this. -/
theorem C3_not_interested_classified_hot :
    analyzeInterestLevel "No, I\x27m not interested" = InterestLevel.HOT
  ∧ strIncludes (jsToLower "No, I\x27m not interested") "not interested" = true
  ∧ (generateBasicSummary c3Call).interestLevel = InterestLevel.HOT := by
  decide

/-- C4: an ended event classified as VOICEMAIL leaves `conversationState` and
`completedAt` untouched — `updateStatus` only forces `state = END` and
`completedAt` for COMPLETED and FAILED — so a terminal VOICEMAIL record keeps a
non-END conversation state. -/
theorem C4_voicemail_keeps_state :
    (handleStatusUpdate 900 (mkEndedEvent "voicemail-reached" none) c4Call).status =
      CallStatus.VOICEMAIL
  ∧ isTerminal CallStatus.VOICEMAIL = true
  ∧ (handleStatusUpdate 900 (mkEndedEvent "voicemail-reached" none) c4Call).state ≠
      CallState.END
  ∧ (handleStatusUpdate 900 (mkEndedEvent "voicemail-reached" none) c4Call).completedAt =
      none := by
  decide

/-- C5: when an ended status-update carries an artifact message list, the
post-event transcript is exactly the artifact payload — filtered to non-empty
user/bot fragments — stably sorted by time offset; nothing of the prior
transcript survives, and the result is sorted. -/
theorem C5_final_wins (c : CallEntity) (e : StatusUpdateMsg) (now : Int)
    (msgs : List RawMsg) (hst : e.status = some "ended")
    (hart : e.artifactMessages = some msgs) :
    (handleStatusUpdate now e c).transcript = sortT (finalEntries msgs)
  ∧ List.Pairwise (fun a b => sortKey a ≤ sortKey b)
      (handleStatusUpdate now e c).transcript := by
  have ht : (handleStatusUpdate now e c).transcript = sortT (finalEntries msgs) := by
    rw [handleStatusUpdate_ended now e c hst, handleEnded_transcript, hart]
  exact ⟨ht, by rw [ht]; exact sortT_pairwise _⟩

/-- C5 witness: a record with a prior partial transcript and a concrete final
payload containing a system message and a whitespace-only message. -/
theorem C5_final_wins_witness :
    (handleStatusUpdate 7 c5Event c5Call).transcript = sortT (finalEntries c5Msgs)
  ∧ List.Pairwise (fun a b => sortKey a ≤ sortKey b)
      (handleStatusUpdate 7 c5Event c5Call).transcript :=
  C5_final_wins c5Call c5Event 7 c5Msgs rfl rfl

/-- C6: end reasons are classified by the ordered rule set — exact membership in
the success list gives COMPLETED, otherwise a voicemail marker gives VOICEMAIL,
otherwise a no-answer marker gives NO_ANSWER, otherwise FAILED — and processing
an ended event with reason "customer-ended-call" yields status COMPLETED with
the record's error message left unset. -/
theorem C6_end_reason_classification (reason : String) (c : CallEntity) (now : Int) :
    (reason ∈ successReasons → classifyEndReason reason = CallStatus.COMPLETED)
  ∧ (reason ∉ successReasons →
      voicemailReasons.any (fun r => strIncludes reason r) = true →
      classifyEndReason reason = CallStatus.VOICEMAIL)
  ∧ (reason ∉ successReasons →
      voicemailReasons.any (fun r => strIncludes reason r) = false →
      noAnswerReasons.any (fun r => strIncludes reason r) = true →
      classifyEndReason reason = CallStatus.NO_ANSWER)
  ∧ (reason ∉ successReasons →
      voicemailReasons.any (fun r => strIncludes reason r) = false →
      noAnswerReasons.any (fun r => strIncludes reason r) = false →
      classifyEndReason reason = CallStatus.FAILED)
  ∧ (c.errorMessage = none →
      (handleStatusUpdate now (mkEndedEvent "customer-ended-call" none) c).status =
        CallStatus.COMPLETED
    ∧ (handleStatusUpdate now (mkEndedEvent "customer-ended-call" none) c).errorMessage
        = none) := by
  refine ⟨?_, ?_, ?_, ?_, ?_⟩
  · intro h; simp [classifyEndReason, h]
  · intro h hv; simp [classifyEndReason, h, hv]
  · intro h hv hn; simp [classifyEndReason, h, hv, hn]
  · intro h hv hn; simp [classifyEndReason, h, hv, hn]
  · intro hem
    constructor
    · rw [handleStatusUpdate_ended now (mkEndedEvent "customer-ended-call" none) c rfl,
        handleEnded_status]
      decide
    · rw [handleStatusUpdate_ended now (mkEndedEvent "customer-ended-call" none) c rfl,
        handleEnded_errorMessage]
      rw [if_neg (by decide :
        ¬ (endedFinalStatus (mkEndedEvent "customer-ended-call" none) = CallStatus.FAILED ∧
           truthyOptStr (endedErrMsg (mkEndedEvent "customer-ended-call" none)) = true))]
      exact hem

/-- C6 witness: the classification at "voicemail-reached" and the concrete
"customer-ended-call" scenario on a fresh record. -/
theorem C6_end_reason_classification_witness :
    classifyEndReason "voicemail-reached" = CallStatus.VOICEMAIL
  ∧ (handleStatusUpdate 5 (mkEndedEvent "customer-ended-call" none) cFresh).status =
      CallStatus.COMPLETED
  ∧ (handleStatusUpdate 5 (mkEndedEvent "customer-ended-call" none) cFresh).errorMessage
      = none :=
  ⟨(C6_end_reason_classification "voicemail-reached" cFresh 5).2.1 (by decide) (by decide),
   ((C6_end_reason_classification "customer-ended-call" cFresh 5).2.2.2.2 rfl).1,
   ((C6_end_reason_classification "customer-ended-call" cFresh 5).2.2.2.2 rfl).2⟩

/-- C7: an ended event with end reason "voicemail-reached" leaves the record
with status VOICEMAIL but with NO error message recorded — the handler computes
"Call reached voicemail" and passes it to `updateStatus`, but `updateStatus`
stores an error message only when the status is FAILED. -/
theorem C7_voicemail_error_message_dropped :
    (handleStatusUpdate 900 (mkEndedEvent "voicemail-reached" none) c7Call).status =
      CallStatus.VOICEMAIL
  ∧ (handleStatusUpdate 900 (mkEndedEvent "voicemail-reached" none) c7Call).errorMessage
      = none
  ∧ endedErrorMessage CallStatus.VOICEMAIL "voicemail-reached" =
      some "Call reached voicemail" := by
  decide

/-- C10: the signature verifier is a total boolean function; a missing or empty
signature yields false, a signature whose byte length differs from the 64-byte
hex digest yields false, and verification succeeds exactly on the expected
digest. -/
theorem C10_verifier_total (h : String → String → String) (payload : String)
    (signature : Option String) (secret : String)
    (hlen : (h secret payload).utf8ByteSize = 64) :
    (signature = none → verifyVapiSignature h payload signature secret = false)
  ∧ (∀ s, signature = some s → s.utf8ByteSize ≠ 64 →
      verifyVapiSignature h payload signature secret = false)
  ∧ (verifyVapiSignature h payload signature secret = true ↔
      signature = some (h secret payload)) := by
  refine ⟨?_, ?_, ?_⟩
  · rintro rfl; rfl
  · rintro s rfl hs
    unfold verifyVapiSignature
    dsimp only
    by_cases he : s = ""
    · rw [if_pos he]
    · have hsz : s.utf8ByteSize ≠ (h secret payload).utf8ByteSize := by
        rw [hlen]; exact hs
      rw [if_neg he, if_pos hsz]
  · cases signature with
    | none => simp [verifyVapiSignature]
    | some s =>
      unfold verifyVapiSignature
      dsimp only
      by_cases he : s = ""
      · rw [if_pos he]
        constructor
        · intro hcon; exact absurd hcon (by simp)
        · intro hcon
          have heq : s = h secret payload := by
            exact Option.some.inj hcon
          rw [← heq, he] at hlen
          exact absurd hlen (by decide)
      · by_cases hsz : s.utf8ByteSize ≠ (h secret payload).utf8ByteSize
        · rw [if_neg he, if_pos hsz]
          constructor
          · intro hcon; exact absurd hcon (by simp)
          · intro hcon
            have heq : s = h secret payload := Option.some.inj hcon
            rw [heq] at hsz
            exact absurd rfl hsz
        · rw [if_neg he, if_neg hsz]
          simp [beq_iff_eq]

/-- C10 witness: a fixed 64-byte digest function, a missing-length signature. -/
theorem C10_verifier_total_witness :
    verifyVapiSignature
      (fun _ _ => "aaaaaaaaaaaaaaaaaaaaaaaaaaaaaaaaaaaaaaaaaaaaaaaaaaaaaaaaaaaaaaaa")
      "payload" (some "abc") "secret" = false :=
  (C10_verifier_total
      (fun _ _ => "aaaaaaaaaaaaaaaaaaaaaaaaaaaaaaaaaaaaaaaaaaaaaaaaaaaaaaaaaaaaaaaa")
      "payload" (some "abc") "secret" (by decide)).2.1 "abc" rfl (by decide)

/-! ### Remaining helper lemmas -/

theorem updateStatus_state (now : Int) (st : CallStatus) (em : Option String)
    (c : CallEntity) :
    (updateStatus now st em c).state =
    (if (st = .COMPLETED ∨ st = .FAILED) ∧ c.completedAt = none then CallState.END
     else c.state) := by
  rw [updateStatus_eq]

theorem updateStatus_completedAt (now : Int) (st : CallStatus) (em : Option String)
    (c : CallEntity) :
    (updateStatus now st em c).completedAt =
    (if (st = .COMPLETED ∨ st = .FAILED) ∧ c.completedAt = none then some now
     else c.completedAt) := by
  rw [updateStatus_eq]

theorem updateStatus_errorMessage (now : Int) (st : CallStatus) (em : Option String)
    (c : CallEntity) :
    (updateStatus now st em c).errorMessage =
    (if st = .FAILED ∧ truthyOptStr em = true then em else c.errorMessage) := by
  rw [updateStatus_eq]

theorem addSummary_status (now : Int) (s : CallSummary) (c : CallEntity) :
    (addSummary now s c).status = c.status := rfl

theorem addSummary_errorMessage (now : Int) (s : CallSummary) (c : CallEntity) :
    (addSummary now s c).errorMessage = c.errorMessage := rfl

theorem addSummary_summary (now : Int) (s : CallSummary) (c : CallEntity) :
    (addSummary now s c).summary = some s := rfl

theorem mem_insAfter {a x : TranscriptMessage} : ∀ {l : List TranscriptMessage},
    a ∈ insAfter x l ↔ a = x ∨ a ∈ l := by
  intro l
  induction l with
  | nil => simp [insAfter]
  | cons y ys ih =>
    by_cases h : sortKey x < sortKey y
    · simp [insAfter, h]
    · simp only [insAfter, if_neg h, List.mem_cons, ih]
      tauto

theorem insAfter_pairwise {x : TranscriptMessage} : ∀ {l : List TranscriptMessage},
    List.Pairwise (fun a b => sortKey a ≤ sortKey b) l →
    List.Pairwise (fun a b => sortKey a ≤ sortKey b) (insAfter x l) := by
  intro l
  induction l with
  | nil => intro _; simp [insAfter]
  | cons y ys ih =>
    intro h
    rw [List.pairwise_cons] at h
    obtain ⟨hy, hys⟩ := h
    by_cases hxy : sortKey x < sortKey y
    · rw [insAfter, if_pos hxy, List.pairwise_cons]
      refine ⟨?_, ?_⟩
      · intro z hz
        rcases List.mem_cons.mp hz with hz | hz
        · rw [hz]; omega
        · have := hy z hz; omega
      · rw [List.pairwise_cons]; exact ⟨hy, hys⟩
    · rw [insAfter, if_neg hxy, List.pairwise_cons]
      refine ⟨?_, ih hys⟩
      intro z hz
      rcases mem_insAfter.mp hz with hz | hz
      · rw [hz]; omega
      · exact hy z hz

theorem sortT_insAfter (x : TranscriptMessage) (l : List TranscriptMessage) :
    sortT (insAfter x (sortT l)) = insAfter x (sortT l) :=
  sortT_of_pairwise (insAfter_pairwise (sortT_pairwise l))

/-! ### Claims C2, C8, C9 -/

/-- C2 counterexample: an already-terminal record carrying a summary has that
summary regenerated and overwritten when the same kind of terminal event is
processed again — the ended path of `handleStatusUpdate` always calls
`addSummary`. -/
theorem C2_summary_overwritten :
    isTerminal c2Done.status = true
  ∧ c2Done.summary = some c2Summary0
  ∧ (handleStatusUpdate 300 (mkEndedEvent "customer-ended-call" none) c2Done).summary ≠
      some c2Summary0 := by
  decide

/-- C2 (amended): the webhook ended path regenerates and overwrites the summary
on every terminal event; because generation is deterministic, replaying the
identical ended event yields the identical status, transcript and summary as
processing it once, and the stale-call reaper never overwrites an existing
summary. -/
theorem C2_replay_idempotent (e : StatusUpdateMsg) (c : CallEntity) (n1 n2 tmo : Int)
    (hst : e.status = some "ended") :
    ((handleStatusUpdate n2 e (handleStatusUpdate n1 e c)).status =
        (handleStatusUpdate n1 e c).status
   ∧ (handleStatusUpdate n2 e (handleStatusUpdate n1 e c)).transcript =
        (handleStatusUpdate n1 e c).transcript
   ∧ (handleStatusUpdate n2 e (handleStatusUpdate n1 e c)).summary =
        (handleStatusUpdate n1 e c).summary)
  ∧ (∀ s, c.summary = some s → (reapOne n1 tmo c).summary = some s) := by
  constructor
  · rw [handleStatusUpdate_ended n1 e c hst]
    rw [handleStatusUpdate_ended n2 e (handleEnded n1 e c) hst]
    refine ⟨?_, ?_, ?_⟩
    · rw [handleEnded_status, handleEnded_status]
    · rw [handleEnded_transcript]
      cases ham : e.artifactMessages with
      | none => rfl
      | some m => rw [handleEnded_transcript, ham]
    · rw [handleEnded_summary, handleEnded_summary]
      refine congrArg some (generateCallSummary_congr _ ?_ ?_ ?_ ?_ ?_)
      · rw [updateStatus_transcript, updateStatus_transcript]
        rw [endedTranscriptStep_transcript, endedTranscriptStep_transcript]
        cases ham : e.artifactMessages with
        | none => rw [handleEnded_transcript, ham]
        | some m => rfl
      · simp only [updateStatus_state, endedTranscriptStep_completedAt,
          endedTranscriptStep_state]
        by_cases hF : endedFinalStatus e = CallStatus.COMPLETED ∨
            endedFinalStatus e = CallStatus.FAILED
        · by_cases hcc : c.completedAt = none
          · have hr1c : (handleEnded n1 e c).completedAt = some n1 := by
              rw [handleEnded_completedAt, if_pos ⟨hF, hcc⟩]
            have hr1s : (handleEnded n1 e c).state = CallState.END := by
              rw [handleEnded_state, if_pos ⟨hF, hcc⟩]
            have hnot : ¬ ((endedFinalStatus e = CallStatus.COMPLETED ∨
                endedFinalStatus e = CallStatus.FAILED) ∧
                (handleEnded n1 e c).completedAt = none) := by
              rw [hr1c]
              rintro ⟨-, hx⟩
              exact Option.some_ne_none _ hx
            rw [if_neg hnot, if_pos ⟨hF, hcc⟩, hr1s]
          · have hr1c : (handleEnded n1 e c).completedAt = c.completedAt := by
              rw [handleEnded_completedAt, if_neg (fun hx => hcc hx.2)]
            have hr1s : (handleEnded n1 e c).state = c.state := by
              rw [handleEnded_state, if_neg (fun hx => hcc hx.2)]
            have hnot : ¬ ((endedFinalStatus e = CallStatus.COMPLETED ∨
                endedFinalStatus e = CallStatus.FAILED) ∧
                (handleEnded n1 e c).completedAt = none) := by
              rw [hr1c]
              exact fun hx => hcc hx.2
            rw [if_neg hnot, if_neg (fun hx => hcc hx.2), hr1s]
        · have hr1s : (handleEnded n1 e c).state = c.state := by
            rw [handleEnded_state, if_neg (fun hx => hF hx.1)]
          rw [if_neg (fun hx => hF hx.1), if_neg (fun hx => hF hx.1), hr1s]
      · simp only [updateStatus_leadData, endedTranscriptStep_leadData]
        rw [handleEnded_leadData]
      · rw [updateStatus_startedAt_of_ne _ _ _ _
            (show endedFinalStatus e ≠ CallStatus.IN_PROGRESS from
              classifyEndReason_ne_inprogress (endedReasonOf e)),
          updateStatus_startedAt_of_ne _ _ _ _
            (show endedFinalStatus e ≠ CallStatus.IN_PROGRESS from
              classifyEndReason_ne_inprogress (endedReasonOf e))]
        simp only [endedTranscriptStep_startedAt]
        rw [handleEnded_startedAt]
      · simp only [updateStatus_completedAt, endedTranscriptStep_completedAt]
        by_cases hF : endedFinalStatus e = CallStatus.COMPLETED ∨
            endedFinalStatus e = CallStatus.FAILED
        · by_cases hcc : c.completedAt = none
          · have hr1c : (handleEnded n1 e c).completedAt = some n1 := by
              rw [handleEnded_completedAt, if_pos ⟨hF, hcc⟩]
            have hnot : ¬ ((endedFinalStatus e = CallStatus.COMPLETED ∨
                endedFinalStatus e = CallStatus.FAILED) ∧
                (handleEnded n1 e c).completedAt = none) := by
              rw [hr1c]
              rintro ⟨-, hx⟩
              exact Option.some_ne_none _ hx
            rw [if_neg hnot, if_pos ⟨hF, hcc⟩, hr1c]
          · have hr1c : (handleEnded n1 e c).completedAt = c.completedAt := by
              rw [handleEnded_completedAt, if_neg (fun hx => hcc hx.2)]
            have hnot : ¬ ((endedFinalStatus e = CallStatus.COMPLETED ∨
                endedFinalStatus e = CallStatus.FAILED) ∧
                (handleEnded n1 e c).completedAt = none) := by
              rw [hr1c]
              exact fun hx => hcc hx.2
            rw [if_neg hnot, if_neg (fun hx => hcc hx.2), hr1c]
        · have hr1c : (handleEnded n1 e c).completedAt = c.completedAt := by
            rw [handleEnded_completedAt, if_neg (fun hx => hF hx.1)]
          rw [if_neg (fun hx => hF hx.1), if_neg (fun hx => hF hx.1), hr1c]
  · intro s hs
    simp only [reapOne]
    rw [if_neg (by
      rw [hs]
      rintro ⟨-, hx⟩
      exact Option.some_ne_none _ hx)]
    rw [updateStatus_summary]
    exact hs

/-- C2 amended-claim witness: replaying a concrete ended event on a record that
already carries a summary, and the reaper's no-overwrite guard on the same
record. -/
theorem C2_replay_idempotent_witness :
    (handleStatusUpdate 2 (mkEndedEvent "customer-ended-call" none)
        (handleStatusUpdate 1 (mkEndedEvent "customer-ended-call" none) c2Done)).summary =
      (handleStatusUpdate 1 (mkEndedEvent "customer-ended-call" none) c2Done).summary
  ∧ (reapOne 1 600 c2Done).summary = some c2Summary0 :=
  ⟨((C2_replay_idempotent (mkEndedEvent "customer-ended-call" none) c2Done 1 2 600
      rfl).1).2.2,
   (C2_replay_idempotent (mkEndedEvent "customer-ended-call" none) c2Done 1 2 600
      rfl).2 c2Summary0 rfl⟩

/-- C8 counterexample: a stale in-progress record with an empty transcript is
failed by the sweep with an error message but ends with NO summary, because the
reaper generates a summary only when the snapshot has a non-empty transcript. -/
theorem C8_empty_transcript_no_summary :
    isStale 10000000 600 c8Stale = true
  ∧ markStaleCallsAsFailed 10000000 600 [c8Stale] = [reapOne 10000000 600 c8Stale]
  ∧ (reapOne 10000000 600 c8Stale).status = CallStatus.FAILED
  ∧ (reapOne 10000000 600 c8Stale).errorMessage ≠ none
  ∧ (reapOne 10000000 600 c8Stale).summary = none := by
  decide

/-- C8 (amended): one sweep leaves non-stale records untouched; every stale
record (transient status, `updatedAt` older than the timeout) becomes FAILED
with the non-empty timeout message as its error message, and ends with a
summary exactly when it already had one or its transcript is non-empty. -/
theorem C8_reaper (now tmo : Int) (c : CallEntity) :
    (isStale now tmo c = false → markStaleCallsAsFailed now tmo [c] = [c])
  ∧ (isStale now tmo c = true →
      markStaleCallsAsFailed now tmo [c] = [reapOne now tmo c]
    ∧ (reapOne now tmo c).status = CallStatus.FAILED
    ∧ (reapOne now tmo c).errorMessage = some (timeoutMessage tmo)
    ∧ timeoutMessage tmo ≠ ""
    ∧ (reapOne now tmo c).summary.isSome =
        (c.summary.isSome || decide (0 < c.transcript.length))) := by
  constructor
  · intro h
    simp [markStaleCallsAsFailed, h]
  · intro h
    refine ⟨by simp [markStaleCallsAsFailed, h], ?_, ?_, timeoutMessage_ne_empty tmo, ?_⟩
    · simp only [reapOne]
      by_cases hg : c.transcript.length > 0 ∧ c.summary = none
      · rw [if_pos hg, addSummary_status, updateStatus_status]
      · rw [if_neg hg, updateStatus_status]
    · have htr : truthyOptStr (some (timeoutMessage tmo)) = true := by
        show (!(timeoutMessage tmo == "")) = true
        rw [beq_eq_false_iff_ne.mpr (timeoutMessage_ne_empty tmo)]
        rfl
      simp only [reapOne]
      by_cases hg : c.transcript.length > 0 ∧ c.summary = none
      · rw [if_pos hg, addSummary_errorMessage, updateStatus_errorMessage,
          if_pos ⟨rfl, htr⟩]
      · rw [if_neg hg, updateStatus_errorMessage, if_pos ⟨rfl, htr⟩]
    · simp only [reapOne]
      by_cases hg : c.transcript.length > 0 ∧ c.summary = none
      · rw [if_pos hg, addSummary_summary]
        rw [hg.2, decide_eq_true hg.1]
        rfl
      · rw [if_neg hg, updateStatus_summary]
        by_cases hsum : c.summary = none
        · have hlen : ¬ 0 < c.transcript.length := fun hl => hg ⟨hl, hsum⟩
          rw [hsum, decide_eq_false hlen]
          rfl
        · obtain ⟨s, hs⟩ := Option.ne_none_iff_exists'.mp hsum
          rw [hs]
          rfl

/-- C8 amended-claim witness: a stale record with a non-empty transcript is
failed with the timeout message and gets a summary. -/
theorem C8_reaper_witness :
    (reapOne 10000000 600 c8StaleTalk).status = CallStatus.FAILED
  ∧ (reapOne 10000000 600 c8StaleTalk).errorMessage = some (timeoutMessage 600)
  ∧ (reapOne 10000000 600 c8StaleTalk).summary.isSome = true := by
  have h := (C8_reaper 10000000 600 c8StaleTalk).2 (by decide)
  refine ⟨h.2.1, h.2.2.1, ?_⟩
  rw [h.2.2.2.2]
  decide

/-- C9 counterexample: two incremental fragments that tie on the effective time
offset come out in delivery order after the stable sort, so delivering them in
the two orders produces two different transcripts. -/
theorem C9_tied_offsets_not_commutative :
    (extractTranscriptFromMessages (extractTranscriptFromMessages c9Call [c9FragA] false)
        [c9FragB] false).transcript ≠
    (extractTranscriptFromMessages (extractTranscriptFromMessages c9Call [c9FragB] false)
        [c9FragA] false).transcript := by
  decide

/-- C9 (amended): for two valid incremental fragments with distinct dedup keys
and distinct effective time offsets, delivering the two incremental updates in
either order produces the same deduplicated, time-sorted transcript. -/
theorem C9_merge_commutes (c : CallEntity) (a b : RawMsg)
    (hva : validRaw a = true) (hvb : validRaw b = true)
    (hk : msgKey a ≠ msgKey b)
    (hs : sortKey (mkEntry a) ≠ sortKey (mkEntry b)) :
    (extractTranscriptFromMessages (extractTranscriptFromMessages c [a] false)
        [b] false).transcript =
    (extractTranscriptFromMessages (extractTranscriptFromMessages c [b] false)
        [a] false).transcript := by
  rw [extract_incr_single c a hva, extract_incr_single c b hvb]
  rw [extract_incr_single _ b hvb, extract_incr_single _ a hva]
  dsimp only
  by_cases ha : hasKeyE (msgKey a) c.transcript = true <;>
    by_cases hb : hasKeyE (msgKey b) c.transcript = true
  · rw [if_pos ha, if_pos hb]
    have h1 : hasKeyE (msgKey b) (sortT c.transcript) = true := by
      rw [hasKeyE_sortT]; exact hb
    have h2 : hasKeyE (msgKey a) (sortT c.transcript) = true := by
      rw [hasKeyE_sortT]; exact ha
    rw [if_pos h1, if_pos h2]
  · rw [if_pos ha, if_neg hb]
    have h1 : ¬ hasKeyE (msgKey b) (sortT c.transcript) = true := by
      rw [hasKeyE_sortT]; exact hb
    have h2 : hasKeyE (msgKey a) (sortT (c.transcript ++ [mkEntry b])) = true := by
      rw [hasKeyE_sortT, hasKeyE_append, ha]
      rfl
    rw [if_neg h1, if_pos h2]
    simp only [sortT_append_single, sortT_idem, sortT_insAfter]
  · rw [if_neg ha, if_pos hb]
    have h1 : hasKeyE (msgKey b) (sortT (c.transcript ++ [mkEntry a])) = true := by
      rw [hasKeyE_sortT, hasKeyE_append, hb]
      rfl
    have h2 : ¬ hasKeyE (msgKey a) (sortT c.transcript) = true := by
      rw [hasKeyE_sortT]; exact ha
    rw [if_pos h1, if_neg h2]
    simp only [sortT_append_single, sortT_idem, sortT_insAfter]
  · rw [if_neg ha, if_neg hb]
    have h1 : ¬ hasKeyE (msgKey b) (sortT (c.transcript ++ [mkEntry a])) = true := by
      simp only [hasKeyE_sortT, hasKeyE_append, hasKeyE_single, entryKey_mkEntry]
      simp [hb, hk]
    have h2 : ¬ hasKeyE (msgKey a) (sortT (c.transcript ++ [mkEntry b])) = true := by
      simp only [hasKeyE_sortT, hasKeyE_append, hasKeyE_single, entryKey_mkEntry]
      have hk2 : ¬ msgKey b = msgKey a := fun hx => hk hx.symm
      simp [ha, hk2]
    rw [if_neg h1, if_neg h2]
    simp only [sortT_append_single, sortT_idem, sortT_insAfter]
    exact insAfter_comm (Ne.symm hs) (sortT c.transcript)

/-- C9 amended-claim witness: two concrete valid fragments with distinct keys
and distinct time offsets merged into an empty transcript in both orders. -/
theorem C9_merge_commutes_witness :
    (extractTranscriptFromMessages (extractTranscriptFromMessages c9Call [c9WFragA] false)
        [c9WFragB] false).transcript =
    (extractTranscriptFromMessages (extractTranscriptFromMessages c9Call [c9WFragB] false)
        [c9WFragA] false).transcript :=
  C9_merge_commutes c9Call c9WFragA c9WFragB (by decide) (by decide) (by decide) (by decide)

end AICaller
